import Mathlib

/-!
Verification of the WhatsApp companion-bot repository against its
natural-language specification.

Each section shallowly embeds one module of the JavaScript source:
pure functions become Lean functions, stateful handlers become explicit
state-transition functions, and calls into the external connection
provider (network, crypto, clock, randomness) become explicit
parameters or abstract outcome values.  File-system contents are
modelled as the parsed values the code reads and writes; file reads
that may fail are modelled by the fallback value the code substitutes.

The file is organised as definitions first, theorems second.
-/

set_option maxRecDepth 4096

namespace WABot

/-! ## Deduplicator (`src/utils/delay.js`, `uniqueLinks`)

`uniqueLinks(existing, incoming)` builds a JS `Set` from `existing`
(insertion order preserved, duplicates collapsed), then adds each
incoming item that is a non-empty string, trimmed, and returns the
set as an array.  Incoming values that are not strings are skipped by
the `typeof` guard; the embedding therefore takes incoming as a list
of strings, with the empty string covering the remaining falsy case. -/

/-- Insertion-order set insertion, as a JS `Set.add` on an array view. -/
def insertUnique (acc : List String) (x : String) : List String :=
  if x ∈ acc then acc else acc ++ [x]

/-- `uniqueLinks(existing = [], incoming = [])` from `src/utils/delay.js`. -/
def uniqueLinks (existing incoming : List String) : List String :=
  let base := existing.foldl insertUnique []
  incoming.foldl
    (fun acc item => if item = "" then acc else insertUnique acc item.trim)
    base

/-! ## Group joiner (`src/unnamed/part_002`)

`extractInviteCode` applies the fixed regex
`/chat\.whatsapp\.com\/([A-Za-z0-9_-]+)/` to the link: the leftmost
occurrence of the literal `chat.whatsapp.com/` that is followed by at
least one character of the class `[A-Za-z0-9_-]` yields the maximal
greedy run of such characters as the code.  `processGroupQueue` drains
the persisted queue strictly sequentially; the provider call
`sock.groupAcceptInvite`, the wall clock and the socket presence are
explicit parameters, and the emitted side effects (join calls, report
saves, inter-job delays) are recorded as an event trace. -/

/-- The literal part of the invite-link pattern. -/
def inviteHost : List Char := "chat.whatsapp.com/".toList

/-- Character class `[A-Za-z0-9_-]` of the invite-code capture group. -/
def isInviteCodeChar (c : Char) : Bool :=
  ('A' ≤ c && c ≤ 'Z') || ('a' ≤ c && c ≤ 'z') ||
    ('0' ≤ c && c ≤ '9') || c = '_' || c = '-'

/-- Does `p` occur at the head of `l`? -/
def matchesAt : List Char → List Char → Bool
  | [], _ => true
  | _ :: _, [] => false
  | p :: ps, c :: cs => p = c && matchesAt ps cs

/-- Leftmost match of the invite pattern: literal host then a non-empty
greedy run of code characters; on a host occurrence with no following
code character the scan continues (regex backtracking). -/
def findInviteCode : List Char → Option (List Char)
  | [] => none
  | l@(_ :: rest) =>
    if matchesAt inviteHost l then
      let code := (l.drop inviteHost.length).takeWhile isInviteCodeChar
      if code.isEmpty then findInviteCode rest else some code
    else findInviteCode rest

/-- `extractInviteCode(link)` from `src/unnamed/part_002`. -/
def extractInviteCode (link : String) : Option String :=
  (findInviteCode link.toList).map (fun cs => String.mk cs)

/-- Fixed inter-job delay: 2 minutes in milliseconds. -/
def JOIN_DELAY : Nat := 2 * 60 * 1000

/-- Entry of the report's `joined` list: `{ link, jid, time }`. -/
structure JoinedEntry where
  link : String
  jid : String
  time : String
deriving DecidableEq

/-- Entry of the report's `pending`/`failed` lists: `{ link, reason, time }`. -/
structure OutcomeEntry where
  link : String
  reason : String
  time : String
deriving DecidableEq

/-- Report file content `{ joined, pending, failed }`. -/
structure Report where
  joined : List JoinedEntry
  pending : List OutcomeEntry
  failed : List OutcomeEntry
deriving DecidableEq

/-- Queue file content `{ links: [string] }`. -/
structure QueueFile where
  links : List String
deriving DecidableEq

/-- Outcome of `sock.groupAcceptInvite(code)`: resolves a group jid or
throws an error carrying an optional message. -/
inductive JoinResult where
  | ok (jid : String)
  | error (message : Option String)
deriving DecidableEq

/-- Observable side effects of a queue pass. -/
inductive JoinEvent where
  | joinCall (code : String)
  | saveReportEv
  | delayEv (ms : Nat)
deriving DecidableEq

/-- `err?.message || 'Pending approval'`: JS falsy fallback. -/
def errReason : Option String → String
  | some m => if m = "" then "Pending approval" else m
  | none => "Pending approval"

/-- The per-item loop body of `processGroupQueue`; `i` indexes the wall
clock reading taken for the item's report entry. -/
def processItems (join : String → JoinResult) (clock : Nat → String) :
    List String → Nat → Report → Report × List JoinEvent
  | [], _, report => (report, [])
  | link :: rest, i, report =>
    match extractInviteCode link with
    | none =>
      let report' := { report with
        failed := report.failed ++ [⟨link, "Invalid invite link", clock i⟩] }
      let res := processItems join clock rest (i + 1) report'
      (res.1, JoinEvent.saveReportEv :: res.2)
    | some code =>
      match join code with
      | JoinResult.ok jid =>
        let report' := { report with
          joined := report.joined ++ [⟨link, jid, clock i⟩] }
        let res := processItems join clock rest (i + 1) report'
        (res.1, JoinEvent.joinCall code :: JoinEvent.saveReportEv ::
          JoinEvent.delayEv JOIN_DELAY :: res.2)
      | JoinResult.error m =>
        let report' := { report with
          pending := report.pending ++ [⟨link, errReason m, clock i⟩] }
        let res := processItems join clock rest (i + 1) report'
        (res.1, JoinEvent.joinCall code :: JoinEvent.saveReportEv ::
          JoinEvent.delayEv JOIN_DELAY :: res.2)

/-- Persisted files touched by the joiner. -/
structure JoinerFiles where
  queue : QueueFile
  report : Report
deriving DecidableEq

/-- `processGroupQueue(sock, accountId)`: no-op without a socket or on
an empty queue; otherwise one sequential pass over the queue, after
which the queue file is rewritten as `{ links: [] }`. -/
def processGroupQueue (sockPresent : Bool) (join : String → JoinResult)
    (clock : Nat → String) (files : JoinerFiles) :
    JoinerFiles × List JoinEvent :=
  if !sockPresent then (files, [])
  else if files.queue.links.isEmpty then (files, [])
  else
    let res := processItems join clock files.queue.links 0 files.report
    ({ queue := ⟨[]⟩, report := res.1 }, res.2)

/-- Concrete provider join behaviour for the scenario-B counterexample:
every join resolves a group jid. -/
def c1Join : String → JoinResult := fun _ => JoinResult.ok "123@g.us"

/-- Concrete clock for the scenario-B counterexample. -/
def c1Clock : Nat → String := fun _ => "t"

/-- Scenario-B queue exactly as the claim states it, with an empty report. -/
def c1Files : JoinerFiles :=
  ⟨⟨["https://chat.example/invite/XYZ", "not-a-link"]⟩, ⟨[], [], []⟩⟩

/-! ## Account supervisors (`src/whatsapp/accounts/account.js`, `src/unnamed/part_004`)

`account.js` holds two `WhatsAppAccount` classes: a QR variant
(`connect`, fields `sock`, `connected`, `isLinking`) and a pairing-code
variant (`connectWithPairing`, fields `sock`, `connected`,
`phoneNumber`, `pairingCode`, `_pairingRequested`).  `part_004` has a
third, module-level supervisor `connectWhatsApp`.  Connection provider
sockets are identified by an abstract creation token; handler bodies
become state-transition functions whose externally visible calls
(socket creation, pairing-code requests, scheduled reconnects,
provider logout, session clearing) are recorded as actions. -/

/-- Externally visible calls made by the supervisors. -/
inductive AccountAction where
  | makeSocket (id : Nat)
  | requestPairing (phone : Option String)
  | scheduleReconnect (delayMs : Nat) (phone : Option String)
  | reconnectNow
  | clearSessionAct
  | startConsumers
deriving DecidableEq

/-- State of the QR-variant `WhatsAppAccount`. -/
structure QRAccount where
  sock : Option Nat
  connected : Bool
  isLinking : Bool
deriving DecidableEq

/-- State of the pairing-code `WhatsAppAccount`. -/
structure PairingAccount where
  sock : Option Nat
  connected : Bool
  phoneNumber : Option String
  pairingCode : Option String
  pairingRequested : Bool
deriving DecidableEq

/-- QR-variant `connect()`: loads auth state and unconditionally builds
a new socket via `makeWASocket`; no state is consulted first. -/
def connect (st : QRAccount) (fresh : Nat) : QRAccount × List AccountAction :=
  ({ st with sock := some fresh }, [AccountAction.makeSocket fresh])

/-- `connectWithPairing(phoneNumber)`: stores the phone number and
unconditionally builds a new socket; no state is consulted first. -/
def connectWithPairing (st : PairingAccount) (phone : Option String)
    (fresh : Nat) : PairingAccount × List AccountAction :=
  ({ st with phoneNumber := phone, sock := some fresh },
    [AccountAction.makeSocket fresh])

/-- A `connection.update` event as seen by the pairing variant's
handler.  `connecting res` carries the outcome the provider would give
a `requestPairingCode` call issued during this event: `some code` on
success, `none` when the call throws. -/
inductive UpdEvent where
  | connecting (res : Option String)
  | connOpen
  | connClose (loggedOut : Bool)
deriving DecidableEq

/-- The pairing variant's `connection.update` handler.  On `connecting`
with the `_pairingRequested` flag clear it sets the flag and issues the
request; the `catch` branch clears the flag again when the request
throws.  On `close` without the logged-out reason it schedules exactly
one reconnect after 5000 ms carrying the current phone number. -/
def pairingUpdate (st : PairingAccount) (e : UpdEvent) :
    PairingAccount × List AccountAction :=
  match e with
  | UpdEvent.connecting res =>
    if !st.pairingRequested then
      match res with
      | some code =>
        ({ st with pairingRequested := true, pairingCode := some code },
          [AccountAction.requestPairing st.phoneNumber])
      | none =>
        ({ st with pairingRequested := false },
          [AccountAction.requestPairing st.phoneNumber])
    else (st, [])
  | UpdEvent.connOpen =>
    ({ st with connected := true }, [AccountAction.startConsumers])
  | UpdEvent.connClose loggedOut =>
    if loggedOut then ({ st with connected := false }, [])
    else
      ({ st with connected := false },
        [AccountAction.scheduleReconnect 5000 st.phoneNumber])

/-- The body of the pairing variant's scheduled reconnect timeout:
clears the pairing flag and code, then re-runs `connectWithPairing`
with the same phone number. -/
def pairingReconnectFire (st : PairingAccount) (fresh : Nat) :
    PairingAccount × List AccountAction :=
  connectWithPairing
    { st with pairingRequested := false, pairingCode := none }
    st.phoneNumber fresh

/-- The QR variant's `close` branch: never reconnects while linking or
on the logged-out reason; otherwise calls `this.reconnect()` with no
delay. -/
def qrCloseUpdate (st : QRAccount) (loggedOut : Bool) :
    QRAccount × List AccountAction :=
  let st' := { st with connected := false }
  if st.isLinking then (st', [])
  else if loggedOut then (st', [])
  else (st', [AccountAction.reconnectNow])

/-- `config.safety` from `src/src/config.js`; `AUTO_RECONNECT` defaults
to `'true'` and `CLEAR_SESSION_ON_LOGOUT` to `'false'`. -/
structure SafetyConfig where
  autoReconnect : Bool
  clearSessionOnLogout : Bool
deriving DecidableEq

/-- The `close` branch of `connectWhatsApp` in `src/unnamed/part_004`:
clears the session on logout only when configured, then reconnects
immediately whenever `autoReconnect` is set — including on a
logged-out close. -/
def connectWhatsAppClose (cfg : SafetyConfig) (loggedOut : Bool) :
    List AccountAction :=
  (if loggedOut && cfg.clearSessionOnLogout then
    [AccountAction.clearSessionAct] else []) ++
  (if cfg.autoReconnect then [AccountAction.reconnectNow] else [])

/-- Run the pairing handler over a list of update events, collecting
all emitted actions. -/
def runPairingUpdates (st : PairingAccount) :
    List UpdEvent → PairingAccount × List AccountAction
  | [] => (st, [])
  | e :: rest =>
    let r := pairingUpdate st e
    let r2 := runPairingUpdates r.1 rest
    (r2.1, r.2 ++ r2.2)

/-- Is this event a connection close? -/
def isCloseEvent : UpdEvent → Bool
  | UpdEvent.connClose _ => true
  | _ => false

/-- Did the provider pairing request carried by this event succeed?
(Vacuously true for non-`connecting` events.) -/
def resultOk : UpdEvent → Bool
  | UpdEvent.connecting none => false
  | _ => true

/-- Number of `requestPairingCode` invocations in an action trace. -/
def countRequests (acts : List AccountAction) : Nat :=
  acts.countP (fun a => match a with
    | AccountAction.requestPairing _ => true
    | _ => false)

/-- Is the action an (immediate or scheduled) reconnect? -/
def isReconnectAct : AccountAction → Bool
  | AccountAction.scheduleReconnect _ _ => true
  | AccountAction.reconnectNow => true
  | _ => false

/-- Is the action a socket creation? -/
def isMakeSocket : AccountAction → Bool
  | AccountAction.makeSocket _ => true
  | _ => false

/-- Start state of the pairing variant after provisioning, used by the
C2 counterexample and witness. -/
def c2Start : PairingAccount := ⟨some 0, false, some "15550000001", none, false⟩

/-- Outcome of the provider-side `sock.logout()` call. -/
inductive LogoutOutcome where
  | ok
  | err
deriving DecidableEq

/-- `logout()` of the pairing variant: inside a `try`, when a socket
exists it awaits the provider logout and only then clears the socket
reference and the connected flag; a throwing provider call jumps to
`catch` (log only), skipping the cleanup.  No socket: no-op. -/
def logout (st : PairingAccount) (provider : LogoutOutcome) : PairingAccount :=
  match st.sock with
  | none => st
  | some _ =>
    match provider with
    | LogoutOutcome.ok => { st with sock := none, connected := false }
    | LogoutOutcome.err => st

/-- `logout()` of the QR variant — same body as the pairing variant's. -/
def qrLogout (st : QRAccount) (provider : LogoutOutcome) : QRAccount :=
  match st.sock with
  | none => st
  | some _ =>
    match provider with
    | LogoutOutcome.ok => { st with sock := none, connected := false }
    | LogoutOutcome.err => st

/-! ## Auth state manager (`src/whatsapp/scraper.js`, `AuthStateManager`)

Sessions are stored as JSON, optionally sealed in an
`{encrypted, iv, authTag}` envelope.  The embedding models file content
at the parse level, the AES-256-GCM decipher as an oracle giving either
an authentication failure (the `decipher.final` throw) or the parsed
plaintext, and `crypto.randomBytes` as a byte stream drawn from a seed
function.  Key material fields not examined by validation (noise keys,
signed pre-keys, …) are elided; the scalar fields that
`createNewAuthState` sets are kept.  `advSecretKey` is random-bytes
text whose exact base64 alphabet is immaterial here and is rendered in
hex. -/

/-- `creds` of a session; ids may be absent (or empty, which is equally
JS-falsy). -/
structure Creds where
  deviceId : Option String
  phoneId : Option String
  identityId : Option String
  registrationId : Nat
  nextPreKeyId : Nat
  advSecretKey : String
deriving DecidableEq

/-- A session value: the `creds` member may be absent. -/
structure Session where
  creds : Option Creds
deriving DecidableEq

/-- Parsed JSON of a session file: the optional `state` member plus the
object itself viewed as a session (`parsed.state || parsed`). -/
structure ParsedFile where
  state : Option Session
  asSession : Session
deriving DecidableEq

/-- Result of `JSON.parse` on a decrypted plaintext. -/
inductive ParseResult where
  | unparseable
  | parsed (p : ParsedFile)
deriving DecidableEq

/-- Ciphertext envelope `{ encrypted, iv, authTag }` found on disk. -/
structure EncPayload where
  encrypted : String
  iv : String
  authTag : String
deriving DecidableEq

/-- Result of the AES-256-GCM decipher on a payload: `authFail` when
`decipher.final` throws (tag mismatch), otherwise the decrypted
plaintext's parse result. -/
inductive GcmResult where
  | authFail
  | ok (plaintext : ParseResult)
deriving DecidableEq

/-- Credential file content as the code reads it. -/
inductive FileContent where
  | missing
  | unparseable
  | enc (payload : EncPayload)
  | plain (p : ParsedFile)
deriving DecidableEq

/-- JS truthiness of an optional string field. -/
def truthyStr : Option String → Bool
  | some s => s != ""
  | none => false

/-- `validateSessionStructure(session)`: `creds` plus the three ids
must all be truthy. -/
def validateSessionStructure : Option Session → Bool
  | none => false
  | some session =>
    match session.creds with
    | none => false
    | some c =>
      truthyStr c.deviceId && truthyStr c.phoneId && truthyStr c.identityId

/-- Hex digit for a nibble. -/
def hexChar (n : Nat) : Char := "0123456789abcdef".toList.getD n '0'

/-- Hex rendering of a byte list, two digits per byte. -/
def hexEncodeList : List Nat → List Char
  | [] => []
  | b :: bs => hexChar (b / 16 % 16) :: hexChar (b % 16) :: hexEncodeList bs

/-- Hex rendering of a byte list as a string. -/
def hexEncode (bs : List Nat) : String := String.mk (hexEncodeList bs)

/-- `crypto.randomBytes(n)` as `n` bytes drawn from a seed stream at a
given offset. -/
def randomBytes (seed : Nat → Nat) (start n : Nat) : List Nat :=
  (List.range n).map (fun i => seed (start + i) % 256)

/-- `createNewAuthState()`: device id `bot-` + 4 random bytes in hex,
phone id 16 random bytes, identity id 20 random bytes, registration id
123, pre-key counter 1, plus a random `advSecretKey`. -/
def createNewAuthState (seed : Nat → Nat) : Session :=
  { creds := some {
      deviceId := some ("bot-" ++ hexEncode (randomBytes seed 0 4)),
      phoneId := some (hexEncode (randomBytes seed 4 16)),
      identityId := some (hexEncode (randomBytes seed 20 20)),
      registrationId := 123,
      nextPreKeyId := 1,
      advSecretKey := hexEncode (randomBytes seed 40 32) } }

/-- The ciphertext envelope itself re-parsed as a session file: it has
neither a `state` nor a `creds` member.  This is what `JSON.parse`
yields after `decryptData` swallows a tag failure and hands back the
raw file text. -/
def envelopeParsed : ParsedFile := { state := none, asSession := { creds := none } }

/-- `parsed.state || parsed`. -/
def sessionOfParsed (p : ParsedFile) : Session := p.state.getD p.asSession

/-- `loadSessionFromFile()`: `null` for a missing or unparseable file;
for ciphertext, `null` when no key is configured; decrypts otherwise
(a tag failure degenerates to parsing the envelope itself); any loaded
session must pass `validateSessionStructure` or `null` is returned. -/
def loadSessionFromFile (key : Option String) (gcm : EncPayload → GcmResult) :
    FileContent → Option Session
  | FileContent.missing => none
  | FileContent.unparseable => none
  | FileContent.enc payload =>
    match key with
    | none => none
    | some _ =>
      match gcm payload with
      | GcmResult.authFail =>
        let s := sessionOfParsed envelopeParsed
        if validateSessionStructure (some s) then some s else none
      | GcmResult.ok ParseResult.unparseable => none
      | GcmResult.ok (ParseResult.parsed p) =>
        let s := sessionOfParsed p
        if validateSessionStructure (some s) then some s else none
  | FileContent.plain p =>
    let s := sessionOfParsed p
    if validateSessionStructure (some s) then some s else none

/-- Result of `loadAuthState()`: the state handed to the caller and
whether a fresh envelope was synthesized (and then persisted via
`saveSessionToFile`). -/
structure LoadResult where
  state : Session
  createdNew : Bool
deriving DecidableEq

/-- `loadAuthState()`: use the loaded session when one loads, else
synthesize and persist a new envelope. -/
def loadAuthState (key : Option String) (gcm : EncPayload → GcmResult)
    (file : FileContent) (seed : Nat → Nat) : LoadResult :=
  match loadSessionFromFile key gcm file with
  | some s => { state := s, createdNew := false }
  | none => { state := createNewAuthState seed, createdNew := true }

/-- Scenario C's credential file `{"creds":{}}`: a `creds` object with
every required id absent, and no `state` wrapper. -/
def credsEmptyFile : ParsedFile :=
  ⟨none, ⟨some ⟨none, none, none, 0, 0, ""⟩⟩⟩

/-! ## Account registry (`src/whatsapp/accounts/registry.js`)

The registry file `{ accounts: [{ id, createdAt }] }` is modelled as
its parsed value; `addAccount`/`removeAccount` become functions from
the loaded registry to the resulting registry plus the returned
boolean and whether `saveAccounts` was invoked (i.e. whether the file
was rewritten). -/

/-- A persisted registry row `{ id, createdAt }`. -/
structure RegAccount where
  id : String
  createdAt : String
deriving DecidableEq

/-- Parsed registry file `{ accounts: [...] }`. -/
structure Registry where
  accounts : List RegAccount
deriving DecidableEq

/-- Argument of `addAccount`: `createdAt` may be absent or falsy. -/
structure NewAccount where
  id : String
  createdAt : Option String
deriving DecidableEq

/-- Outcome of a registry operation: the persisted registry, the
boolean returned to the caller, and whether the file was written. -/
structure RegResult where
  registry : Registry
  returned : Bool
  saved : Bool
deriving DecidableEq

/-- `account.createdAt || new Date().toISOString()`. -/
def jsOr (v : Option String) (fallback : String) : String :=
  match v with
  | some s => if s = "" then fallback else s
  | none => fallback

/-- `addAccount(account)`: refuse (no write) when the id is already
present, else append `{ id, createdAt }` and save. -/
def addAccount (reg : Registry) (account : NewAccount) (now : String) :
    RegResult :=
  if reg.accounts.any (fun a => a.id == account.id) then
    { registry := reg, returned := false, saved := false }
  else
    { registry := ⟨reg.accounts ++ [⟨account.id, jsOr account.createdAt now⟩]⟩,
      returned := true, saved := true }

/-- `removeAccount(accountId)`: filter the id out; if nothing was
removed, return `false` without writing the file. -/
def removeAccount (reg : Registry) (accountId : String) : RegResult :=
  let filtered := reg.accounts.filter (fun a => a.id != accountId)
  if filtered.length = reg.accounts.length then
    { registry := reg, returned := false, saved := false }
  else
    { registry := ⟨filtered⟩, returned := true, saved := true }

/-! ## Theorems -/

/-! ### Deduplicator -/

theorem insertUnique_nodup (acc : List String) (x : String)
    (h : acc.Nodup) : (insertUnique acc x).Nodup := by
  unfold insertUnique
  split
  · exact h
  · next hx =>
    simpa [List.nodup_append] using ⟨h, fun hmem => hx hmem⟩

theorem mem_insertUnique_of_mem (acc : List String) (x y : String)
    (h : y ∈ acc) : y ∈ insertUnique acc x := by
  unfold insertUnique
  split
  · exact h
  · exact List.mem_append_left _ h

theorem foldl_insertUnique_nodup (l acc : List String)
    (h : acc.Nodup) : (l.foldl insertUnique acc).Nodup := by
  induction l generalizing acc with
  | nil => exact h
  | cons a as ih => exact ih _ (insertUnique_nodup _ _ h)

theorem mem_foldl_insertUnique_of_mem_acc (l acc : List String) (y : String)
    (h : y ∈ acc) : y ∈ l.foldl insertUnique acc := by
  induction l generalizing acc with
  | nil => exact h
  | cons a as ih => exact ih _ (mem_insertUnique_of_mem _ _ _ h)

theorem self_mem_insertUnique (acc : List String) (x : String) :
    x ∈ insertUnique acc x := by
  unfold insertUnique
  split
  · assumption
  · exact List.mem_append_right _ (List.mem_singleton.mpr rfl)

theorem mem_foldl_insertUnique_of_mem (l acc : List String) (y : String)
    (h : y ∈ l) : y ∈ l.foldl insertUnique acc := by
  induction l generalizing acc with
  | nil => cases h
  | cons a as ih =>
    simp only [List.foldl_cons]
    rcases List.mem_cons.mp h with rfl | h
    · exact mem_foldl_insertUnique_of_mem_acc _ _ _ (self_mem_insertUnique _ _)
    · exact ih _ h

theorem foldl_trimInsert_nodup (l acc : List String)
    (h : acc.Nodup) :
    (l.foldl
      (fun acc item => if item = "" then acc else insertUnique acc item.trim)
      acc).Nodup := by
  induction l generalizing acc with
  | nil => exact h
  | cons a as ih =>
    simp only [List.foldl_cons]
    split
    · exact ih _ h
    · exact ih _ (insertUnique_nodup _ _ h)

theorem mem_foldl_trimInsert_of_mem_acc (l acc : List String) (y : String)
    (h : y ∈ acc) :
    y ∈ l.foldl
      (fun acc item => if item = "" then acc else insertUnique acc item.trim)
      acc := by
  induction l generalizing acc with
  | nil => exact h
  | cons a as ih =>
    simp only [List.foldl_cons]
    split
    · exact ih _ h
    · exact ih _ (mem_insertUnique_of_mem _ _ _ h)

/-- C9: for every existing list `E` and incoming batch `I`,
`uniqueLinks E I` contains every element of `E` (no existing entry is
removed) and contains no duplicate entries. -/
theorem uniqueLinks_superset_and_nodup (E I : List String) :
    (∀ x, x ∈ E → x ∈ uniqueLinks E I) ∧ (uniqueLinks E I).Nodup := by
  constructor
  · intro x hx
    exact mem_foldl_trimInsert_of_mem_acc _ _ _
      (mem_foldl_insertUnique_of_mem _ _ _ hx)
  · exact foldl_trimInsert_nodup _ _
      (foldl_insertUnique_nodup _ _ List.nodup_nil)

/-- C9 witness: concrete instance with a duplicate across `E` and `I`. -/
theorem uniqueLinks_superset_and_nodup_witness :
    "a" ∈ uniqueLinks ["a", "b"] ["b", "c"] ∧
      (uniqueLinks ["a", "b"] ["b", "c"]).Nodup := by
  refine ⟨(uniqueLinks_superset_and_nodup ["a", "b"] ["b", "c"]).1 "a" (by decide),
    (uniqueLinks_superset_and_nodup ["a", "b"] ["b", "c"]).2⟩

/-! ### Group joiner -/

/-- C1 counterexample: on the enqueued list
`["https://chat.example/invite/XYZ", "not-a-link"]` the code records TWO
`failed` entries (the first link does not match the code's fixed pattern
`chat.whatsapp.com/…` either), no `joined` or `pending` entry, performs
no provider join call and no delay, and both reasons are spelled
`"Invalid invite link"`, not `"invalid invite link"`. -/
theorem processGroupQueue_scenarioB_cex :
    (processGroupQueue true c1Join c1Clock c1Files).1.report.failed.length = 2 ∧
    (processGroupQueue true c1Join c1Clock c1Files).1.report.joined = [] ∧
    (processGroupQueue true c1Join c1Clock c1Files).1.report.pending = [] ∧
    (processGroupQueue true c1Join c1Clock c1Files).1.report.failed.map
      OutcomeEntry.reason = ["Invalid invite link", "Invalid invite link"] ∧
    (processGroupQueue true c1Join c1Clock c1Files).2 =
      [JoinEvent.saveReportEv, JoinEvent.saveReportEv] := by
  decide

/-- C1 (amended): processing the queue
`["https://chat.whatsapp.com/XYZ", "not-a-link"]` once with the socket
present appends exactly one `failed` entry, for `"not-a-link"`, with
reason `"Invalid invite link"`; adds exactly one entry to `joined` or
`pending` via the provider join call for the matching link; emits
exactly one join call and no delay for the failed item (the full event
trace is one join call, a report save, the 2-minute delay, then the
failed item's report save only); and rewrites the queue file as
`{ links: [] }`. -/
theorem processGroupQueue_scenarioB (join : String → JoinResult)
    (clock : Nat → String) (r0 : Report) :
    (processGroupQueue true join clock
      ⟨⟨["https://chat.whatsapp.com/XYZ", "not-a-link"]⟩, r0⟩).1.queue = ⟨[]⟩ ∧
    (processGroupQueue true join clock
      ⟨⟨["https://chat.whatsapp.com/XYZ", "not-a-link"]⟩, r0⟩).1.report.failed =
      r0.failed ++ [⟨"not-a-link", "Invalid invite link", clock 1⟩] ∧
    (processGroupQueue true join clock
      ⟨⟨["https://chat.whatsapp.com/XYZ", "not-a-link"]⟩,
        r0⟩).1.report.joined.length +
      (processGroupQueue true join clock
      ⟨⟨["https://chat.whatsapp.com/XYZ", "not-a-link"]⟩,
        r0⟩).1.report.pending.length =
      r0.joined.length + r0.pending.length + 1 ∧
    (processGroupQueue true join clock
      ⟨⟨["https://chat.whatsapp.com/XYZ", "not-a-link"]⟩, r0⟩).2 =
      [JoinEvent.joinCall "XYZ", JoinEvent.saveReportEv,
        JoinEvent.delayEv 120000, JoinEvent.saveReportEv] := by
  have h1 : extractInviteCode "https://chat.whatsapp.com/XYZ" = some "XYZ" := by
    decide
  have h2 : extractInviteCode "not-a-link" = none := by decide
  cases hj : join "XYZ" with
  | ok jid =>
    simp [processGroupQueue, processItems, h1, h2, hj, JOIN_DELAY]
    omega
  | error m =>
    simp [processGroupQueue, processItems, h1, h2, hj, JOIN_DELAY]
    omega

/-! ### Pairing-code request guard -/

theorem countRequests_append (a b : List AccountAction) :
    countRequests (a ++ b) = countRequests a + countRequests b := by
  simp [countRequests, List.countP_append]

theorem countRequests_run_cons (st : PairingAccount) (e : UpdEvent)
    (rest : List UpdEvent) :
    countRequests (runPairingUpdates st (e :: rest)).2 =
      countRequests (pairingUpdate st e).2 +
        countRequests (runPairingUpdates (pairingUpdate st e).1 rest).2 :=
  countRequests_append _ _

theorem no_requests_when_flagged (evs : List UpdEvent) (st : PairingAccount)
    (hflag : st.pairingRequested = true)
    (hnc : ∀ e ∈ evs, isCloseEvent e = false) :
    countRequests (runPairingUpdates st evs).2 = 0 := by
  induction evs generalizing st with
  | nil => rfl
  | cons e rest ih =>
    have hnc' : ∀ x ∈ rest, isCloseEvent x = false :=
      fun x hx => hnc x (List.mem_cons_of_mem _ hx)
    rw [countRequests_run_cons]
    cases e with
    | connecting res =>
      have hstep : pairingUpdate st (UpdEvent.connecting res) = (st, []) := by
        simp [pairingUpdate, hflag]
      rw [hstep]
      dsimp only
      have h := ih st hflag hnc'
      have h1 : countRequests ([] : List AccountAction) = 0 := rfl
      omega
    | connOpen =>
      have hstep : pairingUpdate st UpdEvent.connOpen =
          ({ st with connected := true }, [AccountAction.startConsumers]) := rfl
      rw [hstep]
      dsimp only
      have h := ih { st with connected := true } hflag hnc'
      have h1 : countRequests [AccountAction.startConsumers] = 0 := rfl
      omega
    | connClose lo =>
      have := hnc _ (List.mem_cons_self _ _)
      simp [isCloseEvent] at this

theorem requests_le_one_aux (evs : List UpdEvent) :
    ∀ st : PairingAccount, (∀ e ∈ evs, isCloseEvent e = false) →
      (∀ e ∈ evs, resultOk e = true) →
      countRequests (runPairingUpdates st evs).2 ≤ 1 := by
  induction evs with
  | nil => intro st _ _; simp [runPairingUpdates, countRequests]
  | cons e rest ih =>
    intro st hnc hok
    have hnc' : ∀ x ∈ rest, isCloseEvent x = false :=
      fun x hx => hnc x (List.mem_cons_of_mem _ hx)
    have hok' : ∀ x ∈ rest, resultOk x = true :=
      fun x hx => hok x (List.mem_cons_of_mem _ hx)
    rw [countRequests_run_cons]
    cases e with
    | connecting res =>
      cases res with
      | none =>
        have := hok _ (List.mem_cons_self _ _)
        simp [resultOk] at this
      | some code =>
        by_cases hf : st.pairingRequested
        · have hstep : pairingUpdate st (UpdEvent.connecting (some code)) =
              (st, []) := by
            simp [pairingUpdate, hf]
          rw [hstep]
          dsimp only
          have h := ih st hnc' hok'
          have h1 : countRequests ([] : List AccountAction) = 0 := rfl
          omega
        · simp only [Bool.not_eq_true] at hf
          have hstep : pairingUpdate st (UpdEvent.connecting (some code)) =
              ({ st with pairingRequested := true, pairingCode := some code },
                [AccountAction.requestPairing st.phoneNumber]) := by
            simp [pairingUpdate, hf]
          rw [hstep]
          dsimp only
          have h0 := no_requests_when_flagged rest
            { st with pairingRequested := true, pairingCode := some code }
            rfl hnc'
          have h1 : countRequests
            [AccountAction.requestPairing st.phoneNumber] = 1 := rfl
          omega
    | connOpen =>
      have hstep : pairingUpdate st UpdEvent.connOpen =
          ({ st with connected := true }, [AccountAction.startConsumers]) := rfl
      rw [hstep]
      dsimp only
      have h := ih { st with connected := true } hnc' hok'
      have h1 : countRequests [AccountAction.startConsumers] = 0 := rfl
      omega
    | connClose lo =>
      have := hnc _ (List.mem_cons_self _ _)
      simp [isCloseEvent] at this

/-- C2 counterexample: within one connection attempt (no close event)
where the first pairing-code request throws, the handler issues TWO
`requestPairingCode` invocations, and the `catch` branch has already
reset the "already requested" flag before any fresh attempt began. -/
theorem pairing_request_twice_cex :
    countRequests (runPairingUpdates c2Start
      [UpdEvent.connecting none, UpdEvent.connecting (some "ABCD")]).2 = 2 ∧
    (pairingUpdate c2Start (UpdEvent.connecting none)).1.pairingRequested
      = false := by
  decide

/-- C2 (amended): within a single connection attempt (an update-event
trace with no close), once the flag is set a successful request keeps
it set so no further request is issued; and provided no issued request
throws, `requestPairingCode` is invoked at most once.  (When a request
throws, the `catch` branch clears the flag within the same attempt,
permitting a retry.) -/
theorem pairing_request_at_most_once (st : PairingAccount)
    (evs : List UpdEvent)
    (hnc : ∀ e ∈ evs, isCloseEvent e = false) :
    (st.pairingRequested = true →
      countRequests (runPairingUpdates st evs).2 = 0) ∧
    ((∀ e ∈ evs, resultOk e = true) →
      countRequests (runPairingUpdates st evs).2 ≤ 1) :=
  ⟨fun hflag => no_requests_when_flagged evs st hflag hnc,
    fun hok => requests_le_one_aux evs st hnc hok⟩

/-- C2 witness: a concrete successful attempt issues at most one
request. -/
theorem pairing_request_at_most_once_witness :
    countRequests (runPairingUpdates c2Start
      [UpdEvent.connecting (some "AB"), UpdEvent.connOpen]).2 ≤ 1 :=
  (pairing_request_at_most_once c2Start
    [UpdEvent.connecting (some "AB"), UpdEvent.connOpen]
    (by decide)).2 (by decide)

/-! ### Connect fail-fast (C3) -/

/-- C3 counterexample: with the connection already OPEN
(`connected = true`, a live socket stored), `connect()` does not fail
fast — it creates a new connection object and overwrites the socket
reference; `connectWithPairing` behaves the same. -/
theorem connect_no_fail_fast_cex :
    (connect ⟨some 0, true, false⟩ 1).2 = [AccountAction.makeSocket 1] ∧
    (connect ⟨some 0, true, false⟩ 1).1.sock = some 1 ∧
    (connectWithPairing ⟨some 0, true, some "15550000001", none, true⟩
      (some "15550000001") 1).2 = [AccountAction.makeSocket 1] := by
  decide

/-- C3 (amended): `connect()`/`connectWithPairing()` perform no
fail-fast check: on every call, from every state, they create exactly
one new connection object and replace the account's socket reference
with it, so at most one socket reference is retained but an existing
OPEN/CONNECTING connection does not prevent a new one. -/
theorem connect_always_creates (st : QRAccount) (st2 : PairingAccount)
    (phone : Option String) (fresh : Nat) :
    (connect st fresh).2 = [AccountAction.makeSocket fresh] ∧
    (connect st fresh).1.sock = some fresh ∧
    (connectWithPairing st2 phone fresh).2 = [AccountAction.makeSocket fresh] ∧
    (connectWithPairing st2 phone fresh).1.sock = some fresh :=
  ⟨rfl, rfl, rfl, rfl⟩

/-! ### Logged-out close handling (C4) -/

/-- C4 counterexample: the `connectWhatsApp` close handler of
`src/unnamed/part_004`, under the default configuration
(`AUTO_RECONNECT` defaults to true, `CLEAR_SESSION_ON_LOGOUT` to
false), performs an automatic reconnect on a close whose reason is
logged-out. -/
theorem loggedOut_close_reconnect_cex :
    connectWhatsAppClose ⟨true, false⟩ true = [AccountAction.reconnectNow] ∧
    isReconnectAct AccountAction.reconnectNow = true := by
  decide

/-- C4 (amended): both `WhatsAppAccount` close handlers never reconnect
on a logged-out close (they only drop the connected flag); the
standalone `connectWhatsApp` handler, however, reconnects on every
close — including logged-out — whenever `autoReconnect` is enabled. -/
theorem loggedOut_close_no_retry (st : PairingAccount) (st2 : QRAccount)
    (cfg : SafetyConfig) :
    ((pairingUpdate st (UpdEvent.connClose true)).2.countP
        (fun a => isReconnectAct a) = 0 ∧
      (pairingUpdate st (UpdEvent.connClose true)).1.connected = false) ∧
    ((qrCloseUpdate st2 true).2.countP (fun a => isReconnectAct a) = 0 ∧
      (qrCloseUpdate st2 true).1.connected = false) ∧
    (cfg.autoReconnect = true →
      AccountAction.reconnectNow ∈ connectWhatsAppClose cfg true) := by
  refine ⟨?_, ?_, ?_⟩
  · simp [pairingUpdate]
  · rcases st2 with ⟨s, c, l⟩
    cases l <;> simp [qrCloseUpdate, isReconnectAct]
  · intro h
    simp [connectWhatsAppClose, h]

/-- C4 witness: with `autoReconnect` on, `connectWhatsApp` reconnects
even on logged-out; the account handlers do not. -/
theorem loggedOut_close_no_retry_witness :
    AccountAction.reconnectNow ∈ connectWhatsAppClose ⟨true, true⟩ true :=
  (loggedOut_close_no_retry ⟨none, false, none, none, false⟩
    ⟨none, false, false⟩ ⟨true, true⟩).2.2 rfl

/-! ### Reconnect scheduling on other closes (C5) -/

/-- C5 counterexample: on a non-logged-out close the QR variant
reconnects immediately via `this.reconnect()` — no 5-second scheduled
delay — and `connectWhatsApp` with `autoReconnect` disabled schedules
no reconnect at all. -/
theorem reconnect_no_delay_cex :
    (qrCloseUpdate ⟨some 0, true, false⟩ false).2 = [AccountAction.reconnectNow] ∧
    ((qrCloseUpdate ⟨some 0, true, false⟩ false).2.countP
      (fun a => match a with
        | AccountAction.scheduleReconnect _ _ => true
        | _ => false) = 0) ∧
    connectWhatsAppClose ⟨false, false⟩ false = [] := by
  decide

/-- C5 (amended): on a non-logged-out close, only the pairing variant
schedules exactly one reconnect after the fixed 5000 ms delay, and its
timer re-runs `connectWithPairing` with the same phone number (with the
pairing flag cleared for the fresh attempt); the QR variant reconnects
immediately with no delay (not at all while linking), and
`connectWhatsApp` reconnects immediately only when `autoReconnect` is
enabled. -/
theorem nonLoggedOut_close_reconnect (st : PairingAccount) (st2 : QRAccount)
    (cfg : SafetyConfig) (fresh : Nat) :
    (pairingUpdate st (UpdEvent.connClose false)).2 =
      [AccountAction.scheduleReconnect 5000 st.phoneNumber] ∧
    (pairingUpdate st (UpdEvent.connClose false)).1.connected = false ∧
    (pairingReconnectFire st fresh).1.phoneNumber = st.phoneNumber ∧
    (pairingReconnectFire st fresh).1.pairingRequested = false ∧
    (st2.isLinking = false →
      (qrCloseUpdate st2 false).2 = [AccountAction.reconnectNow]) ∧
    (st2.isLinking = true → (qrCloseUpdate st2 false).2 = []) ∧
    connectWhatsAppClose cfg false =
      (if cfg.autoReconnect then [AccountAction.reconnectNow] else []) := by
  refine ⟨?_, ?_, ?_, ?_, ?_, ?_, ?_⟩
  · simp [pairingUpdate]
  · simp [pairingUpdate]
  · simp [pairingReconnectFire, connectWithPairing]
  · simp [pairingReconnectFire, connectWithPairing]
  · intro h
    simp [qrCloseUpdate, h]
  · intro h
    simp [qrCloseUpdate, h]
  · simp [connectWhatsAppClose]

/-- C5 witness: concrete non-logged-out close of a non-linking QR
account reconnects immediately. -/
theorem nonLoggedOut_close_reconnect_witness :
    (qrCloseUpdate ⟨some 0, true, false⟩ false).2 =
      [AccountAction.reconnectNow] :=
  (nonLoggedOut_close_reconnect ⟨none, false, none, none, false⟩
    ⟨some 0, true, false⟩ ⟨true, false⟩ 0).2.2.2.2.1 rfl

/-! ### Logout cleanup (C6) -/

/-- C6 counterexample: when the provider-side `sock.logout()` throws,
the `catch` branch skips the cleanup — the socket reference and the
connected flag are left unchanged, in both account variants. -/
theorem logout_throw_cex :
    (logout ⟨some 5, true, some "15550000001", none, false⟩
      LogoutOutcome.err).sock = some 5 ∧
    (logout ⟨some 5, true, some "15550000001", none, false⟩
      LogoutOutcome.err).connected = true ∧
    (qrLogout ⟨some 5, true, false⟩ LogoutOutcome.err).sock = some 5 ∧
    (qrLogout ⟨some 5, true, false⟩ LogoutOutcome.err).connected = true := by
  decide

/-- C6 (amended): `logout()` releases the live connection handle
(socket cleared, connected flag false) exactly when the provider-side
logout call returns without throwing; when it throws, the state is
left unchanged (the error is only logged), and with no live socket the
call is a no-op. -/
theorem logout_releases_only_on_success (st : PairingAccount)
    (st2 : QRAccount) :
    (st.sock ≠ none →
      logout st LogoutOutcome.ok = { st with sock := none, connected := false } ∧
      logout st LogoutOutcome.err = st) ∧
    (st.sock = none → ∀ p, logout st p = st) ∧
    (st2.sock ≠ none →
      qrLogout st2 LogoutOutcome.ok =
        { st2 with sock := none, connected := false } ∧
      qrLogout st2 LogoutOutcome.err = st2) := by
  refine ⟨?_, ?_, ?_⟩
  · intro h
    rcases hs : st.sock with _ | s
    · exact absurd hs h
    · constructor <;> simp [logout, hs]
  · intro h p
    simp [logout, h]
  · intro h
    rcases hs : st2.sock with _ | s
    · exact absurd hs h
    · constructor <;> simp [qrLogout, hs]

/-- C6 witness: a successful provider logout on a live socket releases
the handle. -/
theorem logout_releases_only_on_success_witness :
    logout ⟨some 5, true, some "15550000001", none, false⟩ LogoutOutcome.ok =
      ⟨none, false, some "15550000001", none, false⟩ :=
  ((logout_releases_only_on_success
    ⟨some 5, true, some "15550000001", none, false⟩
    ⟨some 0, true, false⟩).1 (by decide)).1

/-! ### Credential store (C7, C8) -/

theorem hexEncode_ne_empty (bs : List Nat) (h : bs ≠ []) :
    hexEncode bs ≠ "" := by
  cases bs with
  | nil => exact absurd rfl h
  | cons b t =>
    intro hEq
    have := congrArg String.data hEq
    simp [hexEncode, hexEncodeList] at this

theorem randomBytes_length (seed : Nat → Nat) (start n : Nat) :
    (randomBytes seed start n).length = n := by
  simp [randomBytes]

theorem prepend_bot_ne_empty (x : String) : ("bot-" ++ x) ≠ "" := by
  intro h
  have h2 := congrArg String.length h
  rw [String.length_append] at h2
  have h3 : ("bot-" : String).length = 4 := rfl
  have h4 : ("" : String).length = 0 := rfl
  omega

theorem createNewAuthState_valid (seed : Nat → Nat) :
    validateSessionStructure (some (createNewAuthState seed)) = true := by
  simp only [validateSessionStructure, createNewAuthState, truthyStr,
    Bool.and_eq_true, bne_iff_ne, ne_eq]
  refine ⟨⟨prepend_bot_ne_empty _, hexEncode_ne_empty _ ?_⟩,
    hexEncode_ne_empty _ ?_⟩
  · apply List.ne_nil_of_length_pos
    rw [randomBytes_length]
    omega
  · apply List.ne_nil_of_length_pos
    rw [randomBytes_length]
    omega

theorem validate_of_load (key : Option String) (gcm : EncPayload → GcmResult)
    (file : FileContent) (s : Session)
    (h : loadSessionFromFile key gcm file = some s) :
    validateSessionStructure (some s) = true := by
  cases file with
  | missing => simp [loadSessionFromFile] at h
  | unparseable => simp [loadSessionFromFile] at h
  | plain p =>
    simp only [loadSessionFromFile] at h
    split at h
    · rename_i hv
      injection h with h2
      subst h2
      exact hv
    · simp at h
  | enc payload =>
    cases key with
    | none => simp [loadSessionFromFile] at h
    | some k =>
      cases hg : gcm payload with
      | authFail =>
        simp only [loadSessionFromFile, hg] at h
        split at h
        · rename_i hv
          injection h with h2
          subst h2
          exact hv
        · simp at h
      | ok pr =>
        cases pr with
        | unparseable => simp [loadSessionFromFile, hg] at h
        | parsed p =>
          simp only [loadSessionFromFile, hg] at h
          split at h
          · rename_i hv
            injection h with h2
            subst h2
            exact hv
          · simp at h

/-- C7: `loadAuthState` always hands back a structurally valid envelope
(device id, phone id, identity id all truthy), whatever is on disk and
however decryption turns out; and on scenario C's `{"creds":{}}` file
the result is the newly synthesized envelope, flagged as created (and
therefore persisted), not the invalid stored one. -/
theorem loadAuthState_valid (key : Option String) (gcm : EncPayload → GcmResult)
    (file : FileContent) (seed : Nat → Nat) :
    validateSessionStructure (some (loadAuthState key gcm file seed).state)
      = true ∧
    loadAuthState key gcm (FileContent.plain credsEmptyFile) seed =
      { state := createNewAuthState seed, createdNew := true } := by
  constructor
  · cases hl : loadSessionFromFile key gcm file with
    | some s =>
      simp only [loadAuthState, hl]
      exact validate_of_load key gcm file s hl
    | none =>
      simp only [loadAuthState, hl]
      exact createNewAuthState_valid seed
  · simp [loadAuthState, loadSessionFromFile, credsEmptyFile, sessionOfParsed,
      validateSessionStructure, truthyStr]

/-- C8: ciphertext on disk with no key configured, or ciphertext whose
authentication tag fails to verify, makes `loadSessionFromFile` report
`null` (a recoverable failure, not a crash), and `loadAuthState` falls
back to synthesizing and persisting a fresh envelope. -/
theorem load_enc_fallback (gcm : EncPayload → GcmResult) (payload : EncPayload)
    (seed : Nat → Nat) (k : String) :
    (loadSessionFromFile none gcm (FileContent.enc payload) = none ∧
      loadAuthState none gcm (FileContent.enc payload) seed =
        { state := createNewAuthState seed, createdNew := true }) ∧
    (gcm payload = GcmResult.authFail →
      loadSessionFromFile (some k) gcm (FileContent.enc payload) = none ∧
      loadAuthState (some k) gcm (FileContent.enc payload) seed =
        { state := createNewAuthState seed, createdNew := true }) := by
  constructor
  · constructor
    · simp [loadSessionFromFile]
    · simp [loadAuthState, loadSessionFromFile]
  · intro hg
    have hnone : loadSessionFromFile (some k) gcm (FileContent.enc payload)
        = none := by
      simp [loadSessionFromFile, hg, sessionOfParsed, envelopeParsed,
        validateSessionStructure]
    exact ⟨hnone, by simp [loadAuthState, hnone]⟩

/-- C8 witness: a concrete tag-verification failure falls back to a
fresh envelope. -/
theorem load_enc_fallback_witness :
    loadAuthState (some "k") (fun _ => GcmResult.authFail)
      (FileContent.enc ⟨"deadbeef", "00", "11"⟩) (fun _ => 0) =
      { state := createNewAuthState (fun _ => 0), createdNew := true } :=
  ((load_enc_fallback (fun _ => GcmResult.authFail) ⟨"deadbeef", "00", "11"⟩
    (fun _ => 0) "k").2 rfl).2

/-! ### Account registry (C10) -/

/-- C10: `addAccount` on an id already present returns `false` and does
not write the registry file; and from a registry whose ids are unique,
both `addAccount` and `removeAccount` preserve uniqueness of ids. -/
theorem registry_unique_ids (reg : Registry) (a : NewAccount) (now i : String) :
    ((∃ x ∈ reg.accounts, x.id = a.id) →
      addAccount reg a now =
        { registry := reg, returned := false, saved := false }) ∧
    ((reg.accounts.map RegAccount.id).Nodup →
      ((addAccount reg a now).registry.accounts.map RegAccount.id).Nodup ∧
      ((removeAccount reg i).registry.accounts.map RegAccount.id).Nodup) := by
  constructor
  · rintro ⟨x, hx, hid⟩
    have hany : reg.accounts.any (fun b => b.id == a.id) = true := by
      rw [List.any_eq_true]
      exact ⟨x, hx, by simp [hid]⟩
    simp [addAccount, hany]
  · intro hnd
    constructor
    · by_cases hany : reg.accounts.any (fun b => b.id == a.id) = true
      · simp [addAccount, hany, hnd]
      · have hnot : a.id ∉ reg.accounts.map RegAccount.id := by
          intro hmem
          rcases List.mem_map.mp hmem with ⟨x, hx, hxid⟩
          exact hany (List.any_eq_true.mpr ⟨x, hx, by simp [hxid]⟩)
        simp only [addAccount, hany, if_false, Bool.false_eq_true]
        simp [List.nodup_append, hnd, hnot]
    · unfold removeAccount
      dsimp only
      split
      · exact hnd
      · dsimp only
        exact List.Nodup.sublist
          (List.Sublist.map RegAccount.id (List.filter_sublist _)) hnd

/-- C10 witness: adding a duplicate id is refused without a write;
adding a fresh id keeps ids unique. -/
theorem registry_unique_ids_witness :
    addAccount ⟨[⟨"a", "t1"⟩]⟩ ⟨"a", none⟩ "t2" =
      { registry := ⟨[⟨"a", "t1"⟩]⟩, returned := false, saved := false } ∧
    ((addAccount ⟨[⟨"a", "t1"⟩]⟩ ⟨"b", none⟩ "t2").registry.accounts.map
      RegAccount.id).Nodup :=
  ⟨(registry_unique_ids ⟨[⟨"a", "t1"⟩]⟩ ⟨"a", none⟩ "t2" "x").1
      ⟨⟨"a", "t1"⟩, List.mem_singleton.mpr rfl, rfl⟩,
    ((registry_unique_ids ⟨[⟨"a", "t1"⟩]⟩ ⟨"b", none⟩ "t2" "x").2
      (by decide)).1⟩

end WABot
